import Mathlib

/-!
Verification development for the autopay-x402 backend.

The definitions below are a shallow embedding of the TypeScript services of
the repository: the balance monitor (`ingestBalanceReading`,
`ensurePaymentsActive` in apps/backend/src/utils/ledger.ts, balanceService
half), the facilitator client (`submitFacilitatorVerification`,
`verifyFacilitatorSignature`), the payment executor (`executePayment`), the
facilitator callback handler (`facilitatorCallbackHandler`), the request
coordinator (`createOrGetRequest`), the session service (`refreshSession`,
`revokeSession`, `getActiveSession`, `incrementSessionUsage`) and the
scheduler backoff logic (`calculateBackoffSeconds`, `handleFailure`).

Modelling conventions:
- Prisma rows become Lean structures; the database becomes explicit lists of
  rows threaded through each operation, together with the append-only ledger.
- Time is a natural number of milliseconds; monetary amounts and balances
  are fixed-point naturals in nano-units (1 unit = 10^9, lamport style), so
  the catalog amount 0.05 is 50000000 and the 0.05 balance threshold is
  50000000.
- External effects (chain RPC, facilitator HTTP, generated ids and hashes)
  are passed in as explicit parameters describing their outcome.
- A thrown JavaScript error becomes `Except.error` with the error message.
- The uniqueness of Payment.txHash comes from the Prisma schema (not under
  src/); it is witnessed in the sources by
  prisma.payment.findUnique(\x7bwhere: \x7btxHash\x7d\x7d) in the callback
  handler and modelled as: an insert whose txHash already occurs fails.
-/

namespace Autopay

/-- Status of an AgentRequest row (PremiumRequest in the spec). -/
inductive ReqStatus where
  | paymentRequired
  | paid
  | fulfilled
  | failed
deriving DecidableEq, Repr

/-- Status of a Payment row. -/
inductive PayStatus where
  | pending
  | confirmed
  | failed
deriving DecidableEq, Repr

/-- Status of a Session row. -/
inductive SessionStatus where
  | active
  | expired
  | exhausted
  | revoked
deriving DecidableEq, Repr

/-- Status of an AutonomyTask row. -/
inductive TaskStatus where
  | idle
  | running
  | backoff
deriving DecidableEq, Repr

/-- Derived status of a BalanceSnapshot. -/
inductive BalanceStatus where
  | ok
  | low
  | error
  | unknown
deriving DecidableEq, Repr

/-- One appended ledger event (LedgerEvent row); `appendLedgerEntry` fields
that the claims inspect. -/
structure LedgerEntry where
  category : String
  event : String
  requestId : Option String := none
  paymentId : Option String := none
  txHash : Option String := none
deriving DecidableEq, Repr

/-- An AgentRequest row (the PremiumRequest of the spec). -/
structure AgentRequest where
  id : String
  endpoint : String
  status : ReqStatus
  amount : Nat
  currency : String
  facilitatorUrl : String
  paymentHash : Option String := none
  responseData : Option String := none
  metadata : Option String := none
deriving DecidableEq, Repr

/-- A Payment row. -/
structure Payment where
  id : String
  requestId : String
  txHash : String
  amount : Nat
  currency : String
  status : PayStatus
  failureCode : Option String := none
  confirmedAt : Option Nat := none
deriving DecidableEq, Repr

/-- A Session row (SessionCapability in the spec). -/
structure Session where
  id : String
  walletPublicKey : String
  sessionPublicKey : String
  nonce : String
  maxSignatures : Nat
  signaturesUsed : Nat := 0
  status : SessionStatus := .active
  expiresAt : Nat
deriving DecidableEq, Repr

/-- An AutonomyTask row. -/
structure AutonomyTask where
  id : String
  endpoint : String
  valueScore : Nat
  cost : Nat
  freshnessSeconds : Nat
  backoffSeconds : Nat
  status : TaskStatus
  failureCount : Nat := 0
  nextRunAt : Option Nat := none
  lockedAt : Option Nat := none
  lastRunAt : Option Nat := none
  lastSuccessAt : Option Nat := none
  lastError : Option String := none
deriving DecidableEq, Repr

/-- The singleton SystemState row (id 1). `ensureSystemState` creates it with
paymentsPaused false when missing, so the model keeps it total with that
default as the initial value. -/
structure SysState where
  paymentsPaused : Bool
  pauseReason : Option String
deriving DecidableEq, Repr

/-- The state `ensureSystemState` materialises when no row exists. -/
def initialSysState : SysState :=
  { paymentsPaused := false, pauseReason := none }

/-- The database slice the verified operations touch, plus the append-only
ledger (newest entry last). -/
structure Db where
  requests : List AgentRequest
  payments : List Payment
  sessions : List Session
  sys : SysState
  ledger : List LedgerEntry
deriving DecidableEq, Repr

/-- appendLedgerEntry: persist one ledger row (the bus emit carries the same
data and is not separately modelled). -/
def appendLedger (db : Db) (e : LedgerEntry) : Db :=
  { db with ledger := db.ledger ++ [e] }

/-- Number of ledger entries recording a given event tag. -/
def countEvent (l : List LedgerEntry) (ev : String) : Nat :=
  (l.filter (fun x => x.event == ev)).length

/-!
## Balance service

From the balanceService half of apps/backend/src/utils/ledger.ts:
`determineStatus`, `ensurePaymentsPaused`, `maybeResumePayments`,
`ingestBalanceReading`, `ensurePaymentsActive`. Balances are fixed-point naturals; the
JavaScript non-finite check of `determineStatus` has no rational
counterpart, so the ERROR status enters the model only through the explicit
`overrideStatus` argument, exactly as the sources inject it
(`refreshBalanceSnapshot` passes the override on every RPC failure). The
snapshot row itself carries no information the claims need beyond its
status, so only the SystemState and ledger effects are kept.
-/

/-- determineStatus(balance, override): override wins; otherwise LOW when
balance is strictly below the threshold, else OK. -/
def determineStatus (threshold : Nat) (balance : Nat)
    (override : Option BalanceStatus) : BalanceStatus :=
  match override with
  | some st => st
  | none => if balance < threshold then .low else .ok

/-- ensurePaymentsPaused(reason): no-op when already paused (for any
reason); otherwise set the pause flag and reason and append the
payments-paused ledger entry. -/
def ensurePaymentsPausedStep (reason : String) (st : SysState × List LedgerEntry) :
    SysState × List LedgerEntry :=
  if st.1.paymentsPaused then st
  else
    ({ paymentsPaused := true, pauseReason := some reason },
      st.2 ++ [{ category := "BALANCE", event := "payments-paused" }])

/-- maybeResumePayments(reasonToClear): clear the pause and append the
payments-resumed entry only when paused for exactly that reason. -/
def maybeResumePaymentsStep (reasonToClear : String) (st : SysState × List LedgerEntry) :
    SysState × List LedgerEntry :=
  if st.1.paymentsPaused && st.1.pauseReason == some reasonToClear then
    ({ paymentsPaused := false, pauseReason := none },
      st.2 ++ [{ category := "BALANCE", event := "payments-resumed" }])
  else st

/-- The SystemState/ledger effect of ingestBalanceReading once the snapshot
status has been determined: LOW pauses (reason LOW_BALANCE), OK resumes an
existing LOW_BALANCE pause, anything else leaves the state alone
(`ensureSystemState` only); then LOW and ERROR additionally append their
low-balance or balance-error ledger entry. -/
def ingestStatus (st : SysState × List LedgerEntry) (status : BalanceStatus) :
    SysState × List LedgerEntry :=
  match status with
  | .low =>
    let stepped := ensurePaymentsPausedStep "LOW_BALANCE" st
    (stepped.1, stepped.2 ++ [{ category := "BALANCE", event := "low-balance" }])
  | .ok => maybeResumePaymentsStep "LOW_BALANCE" st
  | .error => (st.1, st.2 ++ [{ category := "BALANCE", event := "balance-error" }])
  | .unknown => st

/-- ingestBalanceReading(balance, source, metadata, overrideStatus):
determine the status, then apply its SystemState/ledger effect. -/
def ingestBalanceReading (threshold : Nat) (st : SysState × List LedgerEntry)
    (balance : Nat) (override : Option BalanceStatus) : SysState × List LedgerEntry :=
  ingestStatus st (determineStatus threshold balance override)

/-- ensurePaymentsActive(): raise the PaymentsPaused error (carrying the
stored pause reason) when the gate is closed, succeed otherwise. -/
def ensurePaymentsActive (s : SysState) : Except (Option String) Unit :=
  if s.paymentsPaused then .error s.pauseReason else .ok ()

/-- Fold a sequence of derived snapshot statuses through
`ingestStatus`. -/
def runIngest (st : SysState × List LedgerEntry) (evs : List BalanceStatus) :
    SysState × List LedgerEntry :=
  evs.foldl ingestStatus st

/-- SystemState/ledger pairs producible by the balance service from the
default state. -/
def ReachableSys (p : SysState × List LedgerEntry) : Prop :=
  ∃ evs, runIngest (initialSysState, []) evs = p

/-!
## Facilitator client

From facilitatorService (src/unnamed/part_021): `verifyFacilitatorSignature`
compares the supplied hex signature with the hex HMAC-SHA-256 digest of the
raw body using crypto.timingSafeEqual. The HMAC itself is library code; the
model abstracts it as a digest function argument producing the hex string
(Node digests to 64 lowercase hex characters, stated as a hypothesis where
needed). Buffer.from(s, hex) decodes leading pairs of hex digits and stops
at the first character that is not a hex digit or at an odd-length tail;
crypto.timingSafeEqual throws a RangeError when the two buffers have
different lengths.
-/

/-- Hex digit test matching Buffer.from(s, hex). -/
def isHexDigit (c : Char) : Bool :=
  (Char.ofNat 48 ≤ c && c ≤ Char.ofNat 57) ||
  (Char.ofNat 97 ≤ c && c ≤ Char.ofNat 102) ||
  (Char.ofNat 65 ≤ c && c ≤ Char.ofNat 70)

/-- Numeric value of a hex digit. -/
def hexVal (c : Char) : Nat :=
  if Char.ofNat 48 ≤ c && c ≤ Char.ofNat 57 then c.toNat - 48
  else if Char.ofNat 97 ≤ c && c ≤ Char.ofNat 102 then c.toNat - 87
  else c.toNat - 55

/-- Decode leading hex-digit pairs into bytes, Node Buffer style: stop at
the first invalid pair or odd tail. -/
def hexDecodeAux : List Char → List Nat
  | c1 :: c2 :: rest =>
      if isHexDigit c1 && isHexDigit c2 then
        (16 * hexVal c1 + hexVal c2) :: hexDecodeAux rest
      else []
  | _ => []

/-- Buffer.from(s, hex) as a byte list. -/
def hexDecode (s : String) : List Nat :=
  hexDecodeAux s.data

/-- crypto.timingSafeEqual: throws RangeError on length mismatch, otherwise
returns byte-wise equality (the constant-time aspect is not observable in
the model). -/
def timingSafeEqual (a b : List Nat) : Except String Bool :=
  if a.length ≠ b.length then .error "RangeError: Input buffers must have the same byte length"
  else .ok (a == b)

/-- verifyFacilitatorSignature(signature, body): false when the configured
shared secret is absent (JavaScript falsy, so also the empty string) or the
signature header is absent or empty; otherwise compare the hex-decoded
signature with the hex-decoded HMAC digest via timingSafeEqual, which
throws on a length mismatch. `hmacHex secret body` stands for
crypto.createHmac(sha256, secret).update(body).digest(hex). -/
def verifyFacilitatorSignature (hmacHex : String → String → String)
    (secret : Option String) (signature : Option String) (body : String) :
    Except String Bool :=
  match secret with
  | none => .ok false
  | some sec =>
    if sec == "" then .ok false
    else
      match signature with
      | none => .ok false
      | some sig =>
        if sig == "" then .ok false
        else timingSafeEqual (hexDecode sig) (hexDecode (hmacHex sec body))

/-!
## Session service

From sessionService (second half of src/unnamed/part_016): prisma.session
updates keyed by id. `getActiveSession` may demote a session to EXPIRED or
EXHAUSTED while returning absent; `incrementSessionUsage` bumps the
signature counter and exhausts at the limit; `refreshSession` writes a new
expiry and unconditionally sets status ACTIVE; `revokeSession` sets status
REVOKED. prisma.session.update on an unknown id rejects; `refreshSession`
and `revokeSession` surface that as an error, while `incrementSessionUsage`
is only reached after `getActiveSession` returned the row, so the model
keeps it total on the found row.
-/

/-- Replace the session with the given id. -/
def updateSession (sessions : List Session) (sessionId : String)
    (f : Session → Session) : List Session :=
  sessions.map (fun s => if s.id == sessionId then f s else s)

/-- getActiveSession(sessionId): absent unless the row exists, is ACTIVE,
unexpired (now strictly after expiresAt demotes to EXPIRED) and below its
signature budget (at the budget demotes to EXHAUSTED). -/
def getActiveSession (sessions : List Session) (sessionId : String) (now : Nat) :
    List Session × Option Session :=
  match sessions.find? (fun s => s.id == sessionId) with
  | none => (sessions, none)
  | some s =>
    if s.status ≠ .active then (sessions, none)
    else if now > s.expiresAt then
      (updateSession sessions sessionId (fun q => { q with status := .expired }), none)
    else if s.signaturesUsed ≥ s.maxSignatures then
      (updateSession sessions sessionId (fun q => { q with status := .exhausted }), none)
    else (sessions, some s)

/-- incrementSessionUsage(sessionId): increment the counter, then exhaust
when the incremented counter reaches the budget. -/
def incrementSessionUsage (sessions : List Session) (sessionId : String) :
    List Session :=
  let bumped := updateSession sessions sessionId
    (fun q => { q with signaturesUsed := q.signaturesUsed + 1 })
  match bumped.find? (fun s => s.id == sessionId) with
  | none => bumped
  | some s =>
    if s.signaturesUsed ≥ s.maxSignatures then
      updateSession bumped sessionId (fun q => { q with status := .exhausted })
    else bumped

/-- refreshSession(sessionId, ttlSeconds): set the new expiry and
unconditionally set status ACTIVE, appending the session-refreshed ledger
entry; errors only when the row does not exist. -/
def refreshSession (db : Db) (sessionId : String) (now ttl : Nat) :
    Db × Except String Session :=
  match db.sessions.find? (fun s => s.id == sessionId) with
  | none => (db, .error "Record to update not found")
  | some s =>
    let updated : Session := { s with expiresAt := now + ttl, status := .active }
    let db1 := { db with sessions := (updateSession db.sessions sessionId
      (fun q => { q with expiresAt := now + ttl, status := .active })) }
    (appendLedger db1 { category := "SYSTEM", event := "session-refreshed" }, .ok updated)

/-- revokeSession(sessionId, reason): set status REVOKED and append the
session-revoked ledger entry; errors only when the row does not exist. -/
def revokeSession (db : Db) (sessionId : String) :
    Db × Except String Session :=
  match db.sessions.find? (fun s => s.id == sessionId) with
  | none => (db, .error "Record to update not found")
  | some s =>
    let updated : Session := { s with status := .revoked }
    let db1 := { db with sessions := (updateSession db.sessions sessionId
      (fun q => { q with status := .revoked })) }
    (appendLedger db1 { category := "SYSTEM", event := "session-revoked" }, .ok updated)

/-!
## Payment executor

From paymentService (src/unnamed/part_017) `executePayment`, with
facilitatorService.submitFacilitatorVerification (src/unnamed/part_021)
inlined at its call site. The chain interaction (blockhash fetch, transfer
construction, sendRawTransaction, confirmTransaction) is abstracted into a
single outcome: either a confirmed signature or a thrown error message.
The Prisma-generated row ids, the generateTxHash() value used on the
failure path, and the post-confirmation wallet balance reading are passed
in explicitly. Payment.txHash is unique in the schema, so
prisma.payment.create throws when the hash is already present; the thrown
message is modelled by `uniqueTxHashViolation`. The emitted bus events
duplicate data already recorded and are not modelled.
-/

/-- Outcome of the abstracted chain submit/confirm steps. -/
inductive ChainResult where
  | confirmed (signature : String)
  | failed (message : String)
deriving DecidableEq, Repr

/-- External outcomes and generated values supplied to one executePayment
call. -/
structure ExecEnv where
  threshold : Nat
  signerConfigured : Bool
  facilitatorOn : Bool
  facilitatorSubmitOk : Bool
  facilitatorErr : String
  chain : ChainResult
  freshPaymentId : String
  freshFailPaymentId : String
  freshFailTxHash : String
  nowMs : Nat
  balanceAfter : Nat
deriving Repr

/-- Successful results of executePayment (the summary balance read back for
the already-fulfilled and noop shortcuts is dropped). -/
inductive ExecOutcome where
  | confirmedOut (txHash : String) (balance : Nat)
  | alreadyFulfilled (txHash : Option String)
  | noop (txHash : Option String)
deriving DecidableEq, Repr

/-- Message of the Prisma unique-constraint rejection on Payment.txHash. -/
def uniqueTxHashViolation : String :=
  "Unique constraint failed on the fields: (txHash)"

/-- The catch block of executePayment: append the PAYMENT:failed ledger
entry, insert a FAILED Payment row with a synthetic txHash and the error
message as failureCode, and rethrow the original error. The synthetic-row
insert itself is subject to the same txHash uniqueness; a collision there
replaces the propagated error. -/
def paymentFailureBranch (env : ExecEnv) (db : Db) (r : AgentRequest)
    (msg : String) : Db × Except String ExecOutcome :=
  let db1 := appendLedger db
    { category := "PAYMENT", event := "failed", requestId := some r.id }
  if db1.payments.any (fun p => p.txHash == env.freshFailTxHash) then
    (db1, .error uniqueTxHashViolation)
  else
    let failedPayment : Payment :=
      { id := env.freshFailPaymentId, requestId := r.id,
        txHash := env.freshFailTxHash, amount := r.amount,
        currency := r.currency, status := .failed,
        failureCode := some msg, confirmedAt := none }
    ({ db1 with payments := db1.payments ++ [failedPayment] }, .error msg)

/-- The try block of executePayment, entered with the request in
PAYMENT_REQUIRED: run the chain transfer; on a confirmed signature insert
the CONFIRMED Payment row (or hit the txHash uniqueness), mark the request
PAID with paymentHash, bump session usage, ingest the post-confirmation
balance, append PAYMENT:confirmed, then best-effort submit the facilitator
verification, whose failure is rethrown into the catch block. -/
def executePaymentTry (env : ExecEnv) (db : Db) (r : AgentRequest)
    (sessionId : Option String) : Db × Except String ExecOutcome :=
  match env.chain with
  | .failed msg => paymentFailureBranch env db r msg
  | .confirmed signature =>
    if db.payments.any (fun p => p.txHash == signature) then
      paymentFailureBranch env db r uniqueTxHashViolation
    else
      let payment : Payment :=
        { id := env.freshPaymentId, requestId := r.id, txHash := signature,
          amount := r.amount, currency := r.currency, status := .confirmed,
          failureCode := none, confirmedAt := some env.nowMs }
      let db1 := { db with payments := db.payments ++ [payment] }
      let db2 := { db1 with requests := (db1.requests.map (fun (q : AgentRequest) =>
        if q.id == r.id then { q with status := .paid, paymentHash := some signature }
        else q)) }
      let db3 :=
        match sessionId with
        | some sid =>
          if sid == "" then db2
          else { db2 with sessions := incrementSessionUsage db2.sessions sid }
        | none => db2
      let ingested := ingestBalanceReading env.threshold (db3.sys, db3.ledger)
        env.balanceAfter none
      let db4 := { db3 with sys := ingested.1, ledger := ingested.2 }
      let db5 := appendLedger db4
        { category := "PAYMENT", event := "confirmed", requestId := some r.id,
          paymentId := some payment.id, txHash := some signature }
      if env.facilitatorOn then
        if env.facilitatorSubmitOk then
          let db6 := appendLedger db5
            { category := "PAYMENT", event := "facilitator-submitted",
              requestId := some r.id, paymentId := some payment.id,
              txHash := some signature }
          (db6, .ok (.confirmedOut signature env.balanceAfter))
        else
          let db6 := appendLedger db5
            { category := "PAYMENT", event := "facilitator-submit-failed",
              requestId := some r.id, paymentId := some payment.id,
              txHash := some signature }
          paymentFailureBranch env db6 r env.facilitatorErr
      else (db5, .ok (.confirmedOut signature env.balanceAfter))

/-- executePayment(requestId, sessionId): gate on ensurePaymentsActive, load
the request (404 when absent), shortcut FULFILLED and non-PAYMENT_REQUIRED
statuses, require the custodial signer, validate a supplied (truthy)
session id, then run the try block. -/
def executePayment (env : ExecEnv) (db : Db) (requestId : String)
    (sessionId : Option String) : Db × Except String ExecOutcome :=
  match ensurePaymentsActive db.sys with
  | .error _ => (db, .error "Payments temporarily paused")
  | .ok _ =>
    match db.requests.find? (fun r => r.id == requestId) with
    | none => (db, .error "Request not found")
    | some r =>
      if r.status == .fulfilled then (db, .ok (.alreadyFulfilled r.paymentHash))
      else if r.status != .paymentRequired then (db, .ok (.noop r.paymentHash))
      else if !env.signerConfigured then (db, .error "Custodial signer not configured")
      else
        match sessionId with
        | some sid =>
          if sid == "" then executePaymentTry env db r sessionId
          else
            let checked := getActiveSession db.sessions sid env.nowMs
            let db1 := { db with sessions := checked.1 }
            match checked.2 with
            | none => (db1, .error "Session expired or invalid")
            | some _ => executePaymentTry env db1 r sessionId
        | none => executePaymentTry env db r sessionId

/-!
## Facilitator callback handler

From paymentController (src/unnamed/part_012) `facilitatorCallbackHandler`,
after its outer gates (facilitator enabled, signature verified, payload
parsed): locate the Payment by txHash (404 and a
facilitator-callback-payment-missing entry when absent); when the payment
is already in the target terminal state — with the same failure code for a
rejection — append facilitator-callback-duplicate and return the stored row
unchanged; otherwise update status, failureCode and (when newly CONFIRMED)
confirmedAt, append facilitator-callback, and return the updated row. The
withRetry wrapper only re-runs the identical update on transient Prisma
errors, so its effect on the state is the single update modelled here.
-/

/-- Parsed callback body. `status` true means "confirmed", false means
"rejected". -/
structure CallbackPayload where
  txHash : String
  status : Bool
  reason : Option String := none
deriving DecidableEq, Repr

/-- targetStatus: CONFIRMED for a confirmed callback, FAILED for a
rejection. -/
def callbackTargetStatus (payload : CallbackPayload) : PayStatus :=
  if payload.status then .confirmed else .failed

/-- desiredFailureCode: the callback reason for a rejection, null
otherwise. -/
def callbackDesiredFailureCode (payload : CallbackPayload) : Option String :=
  if callbackTargetStatus payload == .failed then payload.reason else none

/-- alreadyProcessed: the payment is in the target terminal state, with the
same failure code for a rejection. -/
def callbackAlreadyProcessed (payment : Payment) (payload : CallbackPayload) : Bool :=
  payment.status == callbackTargetStatus payload &&
    (if callbackTargetStatus payload == .confirmed then true
     else payment.failureCode == callbackDesiredFailureCode payload)

/-- The updateData applied by the callback: target status, desired failure
code, and confirmedAt stamped only when newly CONFIRMED. -/
def applyCallbackUpdate (payment : Payment) (payload : CallbackPayload) (now : Nat) :
    Payment :=
  let newConfirmedAt : Option Nat :=
    if callbackTargetStatus payload == .confirmed && payment.confirmedAt == none
    then some now else payment.confirmedAt
  { payment with
    status := callbackTargetStatus payload
    failureCode := callbackDesiredFailureCode payload
    confirmedAt := newConfirmedAt }

/-- The callback handler core. -/
def facilitatorCallback (db : Db) (payload : CallbackPayload) (now : Nat) :
    Db × Except String Payment :=
  match db.payments.find? (fun p => p.txHash == payload.txHash) with
  | none =>
    (appendLedger db
      { category := "PAYMENT", event := "facilitator-callback-payment-missing",
        txHash := some payload.txHash },
      .error "Payment not found")
  | some payment =>
    if callbackAlreadyProcessed payment payload then
      (appendLedger db
        { category := "PAYMENT", event := "facilitator-callback-duplicate",
          requestId := some payment.requestId, paymentId := some payment.id,
          txHash := some payment.txHash },
        .ok payment)
    else
      let updated : Payment := applyCallbackUpdate payment payload now
      let db1 := { db with payments := (db.payments.map (fun p =>
        if p.id == payment.id then updated else p)) }
      let db2 := appendLedger db1
        { category := "PAYMENT", event := "facilitator-callback",
          requestId := some payment.requestId, paymentId := some payment.id,
          txHash := some payment.txHash }
      (db2, .ok updated)

/-!
## Request coordinator

From agentService (first half of src/unnamed/part_016) `createOrGetRequest`
with its premium catalog. The per-endpoint JSON payload blobs are opaque to
the coordinator and are modelled as opaque non-empty strings; safeParseJson
on such an opaque blob keeps the blob (its parse failure is not
representable on opaque values), and JavaScript truthiness makes null and
the empty string falsy.
-/

/-- One catalog offering. -/
structure Offering where
  endpoint : String
  amount : Nat
  currency : String
  facilitatorUrl : String
  payload : String
deriving DecidableEq, Repr

/-- The market offering: 0.05 USDC (in nano-units). -/
def marketOffering : Offering :=
  { endpoint := "market", amount := 50000000, currency := "USDC",
    facilitatorUrl := "https://facilitator.devnet.coinbase.com/pay",
    payload := "market prices, arbitrageSignals and sentiment blob" }

/-- The knowledge offering: 0.03 CASH (in nano-units). -/
def knowledgeOffering : Offering :=
  { endpoint := "knowledge", amount := 30000000, currency := "CASH",
    facilitatorUrl := "https://facilitator.devnet.coinbase.com/insights",
    payload := "knowledge insights and references blob" }

/-- The closed premium catalog keyed by endpoint tag. -/
def premiumCatalog (endpoint : String) : Option Offering :=
  if endpoint == "market" then some marketOffering
  else if endpoint == "knowledge" then some knowledgeOffering
  else none

/-- JavaScript truthiness of an optional string. -/
def truthy : Option String → Bool
  | none => false
  | some s => s != ""

/-- safeParseJson on an opaque payload blob: null for absent or empty
input, otherwise the blob itself. -/
def safeParseJson (value : Option String) : Option String :=
  if truthy value then value else none

/-- The payment instructions returned with a PAYMENT_REQUIRED outcome. -/
structure PaymentInstructions where
  requestId : String
  endpoint : String
  amount : Nat
  currency : String
  facilitatorUrl : String
deriving DecidableEq, Repr

/-- Result of createOrGetRequest. -/
inductive ReqOutcome where
  | fulfilledOut (requestId : String) (data : Option String)
  | failedOut (requestId : String)
  | paymentRequiredOut (requestId : String) (instructions : PaymentInstructions)
deriving DecidableEq, Repr

/-- The tail of createOrGetRequest shared by the existing-PAYMENT_REQUIRED
and freshly-created paths: append the REQUEST:payment-required ledger entry
and return PAYMENT_REQUIRED with instructions assembled from the
offering. -/
def paymentRequiredReturn (db : Db) (offering : Offering) (createdId : String) :
    Db × Except String ReqOutcome :=
  let db1 := appendLedger db
    { category := "REQUEST", event := "payment-required", requestId := some createdId }
  (db1, .ok (.paymentRequiredOut createdId
    { requestId := createdId, endpoint := offering.endpoint,
      amount := offering.amount, currency := offering.currency,
      facilitatorUrl := offering.facilitatorUrl }))

/-- createOrGetRequest(endpoint, existingRequestId): look the endpoint up
in the catalog (400 otherwise); load the existing request when an id is
supplied; dispatch on its status (FULFILLED with data → return the stored
payload, PAID → move to FULFILLED with the canonical payload and append
REQUEST:data-fulfilled, FAILED → return FAILED); otherwise use the loaded
request if any or create a fresh PAYMENT_REQUIRED row seeded from the
offering, then append REQUEST:payment-required and return the
instructions. -/
def createOrGetRequest (db : Db) (endpoint : String)
    (existingRequestId : Option String) (freshId : String) :
    Db × Except String ReqOutcome :=
  match premiumCatalog endpoint with
  | none => (db, .error "Unknown premium endpoint")
  | some offering =>
    let request : Option AgentRequest :=
      match existingRequestId with
      | some rid => db.requests.find? (fun r => r.id == rid)
      | none => none
    match request with
    | some r =>
      if r.status == .fulfilled && truthy r.responseData then
        (db, .ok (.fulfilledOut r.id (safeParseJson r.responseData)))
      else if r.status == .paid then
        let db1 := { db with requests := (db.requests.map (fun (q : AgentRequest) =>
          if q.id == r.id then { q with status := .fulfilled, responseData := some offering.payload }
          else q)) }
        let db2 := appendLedger db1
          { category := "REQUEST", event := "data-fulfilled", requestId := some r.id }
        (db2, .ok (.fulfilledOut r.id (safeParseJson (some offering.payload))))
      else if r.status == .failed then
        (db, .ok (.failedOut r.id))
      else
        paymentRequiredReturn db offering r.id
    | none =>
      let created : AgentRequest :=
        { id := freshId, endpoint := endpoint, status := .paymentRequired,
          amount := offering.amount, currency := offering.currency,
          facilitatorUrl := offering.facilitatorUrl, paymentHash := none,
          responseData := none,
          metadata := some "\x7b\"retriesRemaining\":3\x7d" }
      let db1 := { db with requests := db.requests ++ [created] }
      paymentRequiredReturn db1 offering freshId

/-!
## Scheduler backoff

From schedulerService (src/unnamed/part_020) `calculateBackoffSeconds` and
`handleFailure`. MAX_BACKOFF_SECONDS is the environment override with
default 900; it is a parameter here with the default as a named constant.
Scheduler times are whole seconds.
-/

/-- Default of AUTONOMY_MAX_BACKOFF_SECONDS. -/
def defaultMaxBackoffSeconds : Nat := 900

/-- calculateBackoffSeconds(base, failureCount) =
min(base * 2 ^ max(0, failureCount - 1), MAX_BACKOFF_SECONDS); truncated
Nat subtraction is exactly max(0, failureCount - 1). -/
def calculateBackoffSeconds (maxBackoffSeconds base failureCount : Nat) : Nat :=
  min (base * 2 ^ (failureCount - 1)) maxBackoffSeconds

/-- handleFailure(task, now, error): increment failureCount, transition to
BACKOFF with the lock cleared, set the next eligible time now + backoff and
record the error, appending the AUTONOMY:task-failure ledger entry. -/
def handleFailure (maxBackoffSeconds : Nat) (task : AutonomyTask) (now : Nat)
    (errorMessage : String) : AutonomyTask × LedgerEntry :=
  let failureCount := task.failureCount + 1
  let backoffSeconds := calculateBackoffSeconds maxBackoffSeconds task.backoffSeconds failureCount
  ({ task with
      status := .backoff
      lockedAt := none
      failureCount := failureCount
      nextRunAt := some (now + backoffSeconds)
      lastError := some errorMessage },
    { category := "AUTONOMY", event := "task-failure" })

/-- A run of consecutive failures observed at the given instants. -/
def runFailures (maxBackoffSeconds : Nat) (task : AutonomyTask)
    (nows : List Nat) (errorMessage : String) : AutonomyTask :=
  nows.foldl (fun t n => (handleFailure maxBackoffSeconds t n errorMessage).1) task

/-!
## Stated invariants and concrete fixtures

`ConfirmedPaymentInvariant` is the spec invariant the claims quote (for
every CONFIRMED Payment: confirmedAt non-null and the owning request is
PAID or FULFILLED with a matching paymentHash); the definitions above are
the code, this predicate is the property checked against them. The
fixtures below are the concrete inputs used by counterexamples and
witnesses.
-/

/-- The spec invariant on CONFIRMED payments. -/
def ConfirmedPaymentInvariant (db : Db) : Prop :=
  ∀ p ∈ db.payments, p.status = .confirmed →
    p.confirmedAt ≠ none ∧
    ∃ r ∈ db.requests, r.id = p.requestId ∧
      (r.status = .paid ∨ r.status = .fulfilled) ∧
      r.paymentHash = some p.txHash

/-- A market request awaiting payment. -/
def req1 : AgentRequest :=
  { id := "req-1", endpoint := "market", status := .paymentRequired,
    amount := 50000000, currency := "USDC",
    facilitatorUrl := "https://facilitator.devnet.coinbase.com/pay" }

/-- Database holding only `req1`, payments active. -/
def db0 : Db :=
  { requests := [req1], payments := [], sessions := [],
    sys := initialSysState, ledger := [] }

/-- Executor environment: chain transfer confirms with signature sig-1 but
the facilitator submit fails. -/
def envSubmitFail : ExecEnv :=
  { threshold := 50000000, signerConfigured := true, facilitatorOn := true,
    facilitatorSubmitOk := false, facilitatorErr := "facilitator unreachable",
    chain := .confirmed "sig-1", freshPaymentId := "pay-1",
    freshFailPaymentId := "pay-2", freshFailTxHash := "synthetic-1",
    nowMs := 1000, balanceAfter := 1000000000 }

/-- A CONFIRMED payment already recorded for sig-1 (a previous attempt of
req-1 whose request update did not land). -/
def existingPay : Payment :=
  { id := "pay-0", requestId := "req-1", txHash := "sig-1", amount := 50000000,
    currency := "USDC", status := .confirmed, confirmedAt := some 500 }

/-- Database where sig-1 is already recorded while req-1 still awaits
payment: the state a retried call sees. -/
def dbDup : Db :=
  { requests := [req1], payments := [existingPay], sessions := [],
    sys := initialSysState, ledger := [] }

/-- Executor environment for the retried call: the chain returns the
already-recorded signature sig-1 and the facilitator submit would
succeed. -/
def envDup : ExecEnv :=
  { envSubmitFail with facilitatorSubmitOk := true, chain := .confirmed "sig-1" }

/-- Executor environment where the chain transfer fails with a timeout. -/
def envChainFail : ExecEnv :=
  { envSubmitFail with chain := .failed "timeout" }

/-- The database produced by a timed-out executePayment on `db0`: a FAILED
payment with the synthetic hash, the request still PAYMENT_REQUIRED. -/
def dbAfterChainFail : Db := (executePayment envChainFail db0 "req-1" none).1

/-- Confirmed facilitator callback for the synthetic hash of
`dbAfterChainFail`. -/
def confirmSyntheticPayload : CallbackPayload :=
  { txHash := "synthetic-1", status := true }

/-- Database holding one payment already CONFIRMED for sig-1 and nothing
else, used to exercise a duplicate confirmed callback. -/
def dbCbDup : Db :=
  { requests := [], payments := [existingPay], sessions := [],
    sys := initialSysState, ledger := [] }

/-- Confirmed callback payload for sig-1. -/
def confirmSig1Payload : CallbackPayload :=
  { txHash := "sig-1", status := true }

/-- A FAILED payment for tx-9 with failure code timeout. -/
def failedPay9 : Payment :=
  { id := "pay-9", requestId := "req-9", txHash := "tx-9", amount := 50000000,
    currency := "USDC", status := .failed, failureCode := some "timeout" }

/-- Database holding only `failedPay9`. -/
def dbCbFresh : Db :=
  { requests := [], payments := [failedPay9], sessions := [],
    sys := initialSysState, ledger := [] }

/-- Confirmed callback payload for tx-9. -/
def confirmTx9Payload : CallbackPayload :=
  { txHash := "tx-9", status := true }

/-- A revoked session. -/
def revokedSession : Session :=
  { id := "sess-1", walletPublicKey := "wallet-1",
    sessionPublicKey := "session-key-1", nonce := "nonce-1",
    maxSignatures := 3, signaturesUsed := 0, status := .revoked,
    expiresAt := 100 }

/-- Database holding only the revoked session. -/
def dbRevoked : Db :=
  { requests := [], payments := [], sessions := [revokedSession],
    sys := initialSysState, ledger := [] }

/-- A fixed 64-hex-character digest standing in for an HMAC-SHA-256
output. -/
def sampleDigestHex : String :=
  "aaaaaaaaaaaaaaaaaaaaaaaaaaaaaaaaaaaaaaaaaaaaaaaaaaaaaaaaaaaaaaaa"

/-- An HMAC function producing the fixed digest. -/
def constHmacHex : String → String → String := fun _ _ => sampleDigestHex

/-- The empty database. -/
def dbEmpty : Db :=
  { requests := [], payments := [], sessions := [],
    sys := initialSysState, ledger := [] }

/-!
## Theorems

Each claim of the specification audit is settled below; supporting lemmas
come first.
-/

/-- Appending an entry with a different event tag keeps an event count. -/
theorem countEvent_append_ne (l : List LedgerEntry) (e : LedgerEntry) (ev : String)
    (h : e.event ≠ ev) : countEvent (l ++ [e]) ev = countEvent l ev := by
  have hb : (e.event == ev) = false := beq_eq_false_iff_ne.mpr h
  simp [countEvent, List.filter_append, List.filter, hb]

/-- Appending an entry with the same event tag bumps its count. -/
theorem countEvent_append_eq (l : List LedgerEntry) (e : LedgerEntry) (ev : String)
    (h : e.event = ev) : countEvent (l ++ [e]) ev = countEvent l ev + 1 := by
  have hb : (e.event == ev) = true := beq_iff_eq.mpr h
  simp [countEvent, List.filter_append, List.filter, hb]

/-- Appending one entry changes an event count by one exactly when the tags
agree. -/
theorem countEvent_append (l : List LedgerEntry) (e : LedgerEntry) (ev : String) :
    countEvent (l ++ [e]) ev = countEvent l ev + (if e.event == ev then 1 else 0) := by
  by_cases hb : (e.event == ev) = true
  · simp [countEvent, List.filter_append, List.filter, hb]
  · have hb2 : (e.event == ev) = false := by simpa using hb
    simp [countEvent, List.filter_append, List.filter, hb2]

/-- Claim C1 (evidence for the code bug): on `db0` the chain transfer
confirms with sig-1, the CONFIRMED Payment row and the PAID request are
persisted, and then the facilitator submit fails — yet executePayment
lands in its catch block: the error propagates to the caller and a second,
FAILED Payment row is created, instead of the call returning
confirmed(txHash, balance). -/
theorem autopay_C1_submit_failure_fails_payment :
    (executePayment envSubmitFail db0 "req-1" none).2 =
      .error "facilitator unreachable" ∧
    ((executePayment envSubmitFail db0 "req-1" none).1.requests.map
      AgentRequest.status) = [.paid] ∧
    ((executePayment envSubmitFail db0 "req-1" none).1.payments.map
      Payment.status) = [.confirmed, .failed] ∧
    countEvent (executePayment envSubmitFail db0 "req-1" none).1.ledger
      "facilitator-submit-failed" = 1 ∧
    countEvent (executePayment envSubmitFail db0 "req-1" none).1.ledger
      "failed" = 1 :=
  ⟨rfl, rfl, rfl, by decide, by decide⟩

/-- Claim C2 (evidence for the code bug): on `dbDup` the retried call sees
the txHash uniqueness violation when inserting sig-1 a second time, but
executePayment has no reconciliation path: the violation goes through the
generic catch block, which appends PAYMENT:failed, creates a second
Payment row (FAILED, synthetic hash) and propagates the error — the
existing Payment and the request are left as they were, but the call
fails instead of reconciling. -/
theorem autopay_C2_duplicate_insert_not_reconciled :
    (executePayment envDup dbDup "req-1" none).2 = .error uniqueTxHashViolation ∧
    (executePayment envDup dbDup "req-1" none).1.payments.length = 2 ∧
    ((executePayment envDup dbDup "req-1" none).1.payments.map
      Payment.status) = [.confirmed, .failed] ∧
    (executePayment envDup dbDup "req-1" none).1.payments.head? = some existingPay ∧
    (executePayment envDup dbDup "req-1" none).1.requests = [req1] ∧
    countEvent (executePayment envDup dbDup "req-1" none).1.ledger "failed" = 1 :=
  ⟨rfl, rfl, rfl, rfl, rfl, by decide⟩

/-- Claim C3 (evidence for the code bug): after a timed-out executePayment,
`dbAfterChainFail` holds a FAILED payment whose owning request is still
PAYMENT_REQUIRED; the confirmed facilitator callback then moves that
payment to CONFIRMED with confirmedAt set, but never touches the owning
request, so the reachable state violates the invariant that every
CONFIRMED payment has a PAID or FULFILLED owner with matching
paymentHash. -/
theorem autopay_C3_callback_confirm_leaves_request_behind :
    ((facilitatorCallback dbAfterChainFail confirmSyntheticPayload 2000).1.payments.map
      Payment.status) = [.confirmed] ∧
    ((facilitatorCallback dbAfterChainFail confirmSyntheticPayload 2000).1.payments.map
      Payment.confirmedAt) = [some 2000] ∧
    ((facilitatorCallback dbAfterChainFail confirmSyntheticPayload 2000).1.requests.map
      AgentRequest.status) = [.paymentRequired] ∧
    ((facilitatorCallback dbAfterChainFail confirmSyntheticPayload 2000).1.requests.map
      AgentRequest.paymentHash) = [none] ∧
    ¬ ConfirmedPaymentInvariant
      (facilitatorCallback dbAfterChainFail confirmSyntheticPayload 2000).1 := by
  refine ⟨rfl, rfl, rfl, rfl, ?_⟩
  unfold ConfirmedPaymentInvariant
  decide

/-- Claim C6 (evidence for the code bug): refreshSession on the REVOKED
session sess-1 does not fail — no SessionNotRefreshable exists — and
returns the session re-activated with the fresh expiry, re-opening a
revoked signing authority. -/
theorem autopay_C6_refresh_reactivates_revoked :
    (refreshSession dbRevoked "sess-1" 1000 3600).2 =
      .ok { revokedSession with status := .active, expiresAt := 4600 } ∧
    ((refreshSession dbRevoked "sess-1" 1000 3600).1.sessions.map
      Session.status) = [.active] :=
  ⟨rfl, rfl⟩

/-- Claim C4 counterexample: when the payment is already CONFIRMED before
the first application, applying the same confirmed callback twice appends
zero facilitator-callback entries (both applications are duplicates), not
exactly one as claimed. -/
theorem autopay_C4_counterexample :
    countEvent ((facilitatorCallback
      (facilitatorCallback dbCbDup confirmSig1Payload 100).1
      confirmSig1Payload 200).1.ledger) "facilitator-callback" = 0 ∧
    countEvent ((facilitatorCallback
      (facilitatorCallback dbCbDup confirmSig1Payload 100).1
      confirmSig1Payload 200).1.ledger) "facilitator-callback-duplicate" = 2 ∧
    (facilitatorCallback (facilitatorCallback dbCbDup confirmSig1Payload 100).1
      confirmSig1Payload 200).1.payments = dbCbDup.payments :=
  ⟨rfl, rfl, rfl⟩

/-- Claim C5 counterexample: the first call creates req-1 and appends one
REQUEST:payment-required entry; the second call, supplying the id of the
existing request still in PAYMENT_REQUIRED, returns PAYMENT_REQUIRED but
appends a second payment-required entry, contradicting "only when a
request is first created". -/
theorem autopay_C5_counterexample :
    countEvent ((createOrGetRequest
      (createOrGetRequest dbEmpty "market" none "req-1").1
      "market" (some "req-1") "req-2").1.ledger) "payment-required" = 2 ∧
    ((createOrGetRequest (createOrGetRequest dbEmpty "market" none "req-1").1
      "market" (some "req-1") "req-2").1.requests.length) = 1 :=
  ⟨rfl, rfl⟩

/-- Claim C8 counterexample: with a secret configured and a well-formed but
short hex signature, verifyFacilitatorSignature reaches
crypto.timingSafeEqual with buffers of different lengths, which throws a
RangeError instead of returning false. -/
theorem autopay_C8_counterexample :
    verifyFacilitatorSignature constHmacHex (some "secret") (some "ab") "body" =
      .error "RangeError: Input buffers must have the same byte length" :=
  rfl

/-- The callback update keeps the transaction hash. -/
theorem applyCallbackUpdate_txHash (payment : Payment) (payload : CallbackPayload)
    (now : Nat) : (applyCallbackUpdate payment payload now).txHash = payment.txHash :=
  rfl

/-- After the callback update has been applied, the payment is in the
target terminal state with the desired failure code, so a repeat of the
same payload is recognised as already processed. -/
theorem callbackAlreadyProcessed_after_update (payment : Payment)
    (payload : CallbackPayload) (now : Nat) :
    callbackAlreadyProcessed (applyCallbackUpdate payment payload now) payload = true := by
  unfold callbackAlreadyProcessed applyCallbackUpdate callbackTargetStatus
    callbackDesiredFailureCode
  cases payload.status <;> simp

/-- One callback application on an already-processed payment: only the
duplicate ledger entry is appended and the stored payment is returned. -/
theorem facilitatorCallback_processed_eq (db : Db) (payload : CallbackPayload)
    (now : Nat) (payment : Payment)
    (hfind : db.payments.find? (fun p => p.txHash == payload.txHash) = some payment)
    (h : callbackAlreadyProcessed payment payload = true) :
    facilitatorCallback db payload now =
      (appendLedger db
        { category := "PAYMENT", event := "facilitator-callback-duplicate",
          requestId := some payment.requestId, paymentId := some payment.id,
          txHash := some payment.txHash },
        .ok payment) := by
  unfold facilitatorCallback
  rw [hfind]
  simp [h]

/-- One callback application on a not-yet-processed payment: the row is
updated in place and the facilitator-callback entry is appended. -/
theorem facilitatorCallback_unprocessed_eq (db : Db) (payload : CallbackPayload)
    (now : Nat) (payment : Payment)
    (hfind : db.payments.find? (fun p => p.txHash == payload.txHash) = some payment)
    (h : callbackAlreadyProcessed payment payload = false) :
    facilitatorCallback db payload now =
      ({ db with
          payments := (db.payments.map (fun p =>
            if p.id == payment.id then applyCallbackUpdate payment payload now else p)),
          ledger := db.ledger ++
            [{ category := "PAYMENT", event := "facilitator-callback",
               requestId := some payment.requestId, paymentId := some payment.id,
               txHash := some payment.txHash }] },
        .ok (applyCallbackUpdate payment payload now)) := by
  unfold facilitatorCallback
  rw [hfind]
  simp [h, appendLedger, applyCallbackUpdate]

/-- Updating the found payment in place (by id) does not disturb what the
txHash lookup returns: it now yields the updated row. -/
theorem find?_txHash_after_update (ps : List Payment) (tx : String)
    (payment updated : Payment)
    (hfind : ps.find? (fun p => p.txHash == tx) = some payment)
    (htx : updated.txHash = payment.txHash) :
    (ps.map (fun p => if p.id == payment.id then updated else p)).find?
      (fun p => p.txHash == tx) = some updated := by
  have hpred : (payment.txHash == tx) = true := by
    have hp := List.find?_some (p := fun q : Payment => q.txHash == tx) hfind
    simpa using hp
  induction ps with
  | nil => simp at hfind
  | cons a as ih =>
    rw [List.map_cons]
    by_cases h : (a.txHash == tx) = true
    · rw [List.find?_cons_of_pos (p := fun q : Payment => q.txHash == tx) _ h] at hfind
      have ha : a = payment := by injection hfind
      subst ha
      have hhead : (if (a.id == a.id) = true then updated else a) = updated := by simp
      rw [hhead]
      have hu : (updated.txHash == tx) = true := by rw [htx]; exact h
      exact List.find?_cons_of_pos (p := fun q : Payment => q.txHash == tx) _ hu
    · rw [List.find?_cons_of_neg (p := fun q : Payment => q.txHash == tx) _ h] at hfind
      by_cases hid : (a.id == payment.id) = true
      · have hhead : (if (a.id == payment.id) = true then updated else a) = updated :=
          if_pos hid
        rw [hhead]
        have hu : (updated.txHash == tx) = true := by rw [htx]; exact hpred
        exact List.find?_cons_of_pos (p := fun q : Payment => q.txHash == tx) _ hu
      · have hhead : (if (a.id == payment.id) = true then updated else a) = a :=
          if_neg hid
        rw [hhead, List.find?_cons_of_neg (p := fun q : Payment => q.txHash == tx) _ h]
        exact ih hfind

/-- Claim C4 (amended): applying the same facilitator callback twice yields
the same final payment state as applying it once and the second application
returns exactly what the first returned (the stored payment, unchanged);
across the two applications the number of facilitator-callback ledger
entries grows by one when the payment was not already in the target
terminal state and by zero when it was, while facilitator-callback-duplicate
entries grow by one, respectively two. -/
theorem autopay_C4_callback_idempotent (db : Db) (payload : CallbackPayload)
    (now1 now2 : Nat) (payment : Payment)
    (hfind : db.payments.find? (fun p => p.txHash == payload.txHash) = some payment) :
    (facilitatorCallback (facilitatorCallback db payload now1).1 payload now2).1.payments =
      (facilitatorCallback db payload now1).1.payments ∧
    (facilitatorCallback (facilitatorCallback db payload now1).1 payload now2).2 =
      (facilitatorCallback db payload now1).2 ∧
    countEvent (facilitatorCallback (facilitatorCallback db payload now1).1
        payload now2).1.ledger "facilitator-callback" =
      countEvent db.ledger "facilitator-callback" +
        (if callbackAlreadyProcessed payment payload then 0 else 1) ∧
    countEvent (facilitatorCallback (facilitatorCallback db payload now1).1
        payload now2).1.ledger "facilitator-callback-duplicate" =
      countEvent db.ledger "facilitator-callback-duplicate" +
        (if callbackAlreadyProcessed payment payload then 2 else 1) := by
  by_cases h : callbackAlreadyProcessed payment payload = true
  · have h1 := facilitatorCallback_processed_eq db payload now1 payment hfind h
    have hfind2 : (facilitatorCallback db payload now1).1.payments.find?
        (fun p => p.txHash == payload.txHash) = some payment := by
      rw [h1]; simpa [appendLedger] using hfind
    have h2 := facilitatorCallback_processed_eq (facilitatorCallback db payload now1).1
      payload now2 payment hfind2 h
    refine ⟨?_, ?_, ?_, ?_⟩
    · rw [h2]; simp [appendLedger]
    · rw [h2, h1]
    · simp only [h2]
      simp only [h1]
      simp only [appendLedger, h, if_true]
      simp [countEvent, List.filter_append]
    · simp only [h2]
      simp only [h1]
      simp only [appendLedger, h, if_true]
      simp [countEvent, List.filter_append]
  · have hb : callbackAlreadyProcessed payment payload = false := by simpa using h
    have h1 := facilitatorCallback_unprocessed_eq db payload now1 payment hfind hb
    have hfind2 : (facilitatorCallback db payload now1).1.payments.find?
        (fun p => p.txHash == payload.txHash) =
          some (applyCallbackUpdate payment payload now1) := by
      rw [h1]
      exact find?_txHash_after_update db.payments payload.txHash payment _ hfind
        (applyCallbackUpdate_txHash payment payload now1)
    have h2 := facilitatorCallback_processed_eq (facilitatorCallback db payload now1).1
      payload now2 (applyCallbackUpdate payment payload now1) hfind2
      (callbackAlreadyProcessed_after_update payment payload now1)
    refine ⟨?_, ?_, ?_, ?_⟩
    · rw [h2]; simp [appendLedger]
    · rw [h2, h1]
    · simp only [h2]
      simp only [h1]
      simp only [appendLedger, hb, Bool.false_eq_true, if_false]
      simp [countEvent, List.filter_append]
    · simp only [h2]
      simp only [h1]
      simp only [appendLedger, hb, Bool.false_eq_true, if_false]
      simp [countEvent, List.filter_append]

/-- Witness for the amended C4 theorem at a concrete input: a FAILED
payment receiving the same confirmed callback twice. -/
theorem autopay_C4_callback_idempotent_witness :
    (facilitatorCallback (facilitatorCallback dbCbFresh confirmTx9Payload 100).1
        confirmTx9Payload 200).1.payments =
      (facilitatorCallback dbCbFresh confirmTx9Payload 100).1.payments ∧
    (facilitatorCallback (facilitatorCallback dbCbFresh confirmTx9Payload 100).1
        confirmTx9Payload 200).2 =
      (facilitatorCallback dbCbFresh confirmTx9Payload 100).2 ∧
    countEvent (facilitatorCallback (facilitatorCallback dbCbFresh confirmTx9Payload 100).1
        confirmTx9Payload 200).1.ledger "facilitator-callback" =
      countEvent dbCbFresh.ledger "facilitator-callback" +
        (if callbackAlreadyProcessed failedPay9 confirmTx9Payload then 0 else 1) ∧
    countEvent (facilitatorCallback (facilitatorCallback dbCbFresh confirmTx9Payload 100).1
        confirmTx9Payload 200).1.ledger "facilitator-callback-duplicate" =
      countEvent dbCbFresh.ledger "facilitator-callback-duplicate" +
        (if callbackAlreadyProcessed failedPay9 confirmTx9Payload then 2 else 1) :=
  autopay_C4_callback_idempotent dbCbFresh confirmTx9Payload 100 200 failedPay9 rfl

/-- Claim C5 (amended): a call supplying the id of an existing request
still in PAYMENT_REQUIRED returns PAYMENT_REQUIRED with the instructions
assembled from the catalog offering and creates no new request, but it
appends one further REQUEST:payment-required ledger entry — the entry is
appended on every call that returns PAYMENT_REQUIRED, not only on first
creation. -/
theorem autopay_C5_payment_required_logged_every_call (db : Db) (endpoint : String)
    (offering : Offering) (rid freshId : String) (r : AgentRequest)
    (hoff : premiumCatalog endpoint = some offering)
    (hfind : db.requests.find? (fun q => q.id == rid) = some r)
    (hstat : r.status = .paymentRequired) :
    createOrGetRequest db endpoint (some rid) freshId =
      (appendLedger db
        { category := "REQUEST", event := "payment-required", requestId := some r.id },
       .ok (.paymentRequiredOut r.id
         { requestId := r.id, endpoint := offering.endpoint, amount := offering.amount,
           currency := offering.currency, facilitatorUrl := offering.facilitatorUrl })) := by
  unfold createOrGetRequest
  rw [hoff]
  simp only []
  rw [hfind]
  simp [hstat, paymentRequiredReturn]

/-- Witness for the amended C5 theorem: req-1 of db0 is PAYMENT_REQUIRED
and a call with its id appends a further payment-required entry. -/
theorem autopay_C5_payment_required_logged_every_call_witness :
    createOrGetRequest db0 "market" (some "req-1") "req-2" =
      (appendLedger db0
        { category := "REQUEST", event := "payment-required", requestId := some req1.id },
       .ok (.paymentRequiredOut req1.id
         { requestId := req1.id, endpoint := marketOffering.endpoint,
           amount := marketOffering.amount, currency := marketOffering.currency,
           facilitatorUrl := marketOffering.facilitatorUrl })) :=
  autopay_C5_payment_required_logged_every_call db0 "market" marketOffering
    "req-1" "req-2" req1 rfl rfl rfl

/-- Claim C10: a call supplying an existingRequestId that matches no stored
request does not fail — the unknown id is ignored, a fresh request is
created in PAYMENT_REQUIRED seeded from the catalog offering, the
REQUEST:payment-required entry is appended, and the call returns
PAYMENT_REQUIRED with the new id. -/
theorem autopay_C10_unknown_existing_id_creates_new (db : Db) (endpoint : String)
    (offering : Offering) (rid freshId : String)
    (hoff : premiumCatalog endpoint = some offering)
    (hfind : db.requests.find? (fun q => q.id == rid) = none) :
    createOrGetRequest db endpoint (some rid) freshId =
      ({ db with
          requests := db.requests ++
            [{ id := freshId, endpoint := endpoint, status := .paymentRequired,
               amount := offering.amount, currency := offering.currency,
               facilitatorUrl := offering.facilitatorUrl, paymentHash := none,
               responseData := none,
               metadata := some "\x7b\"retriesRemaining\":3\x7d" }],
          ledger := db.ledger ++
            [{ category := "REQUEST", event := "payment-required",
               requestId := some freshId }] },
       .ok (.paymentRequiredOut freshId
         { requestId := freshId, endpoint := offering.endpoint,
           amount := offering.amount, currency := offering.currency,
           facilitatorUrl := offering.facilitatorUrl })) := by
  unfold createOrGetRequest
  rw [hoff]
  simp only []
  rw [hfind]
  simp [paymentRequiredReturn, appendLedger]

/-- Witness for C10: db0 stores no request with id missing-id. -/
theorem autopay_C10_unknown_existing_id_creates_new_witness :
    createOrGetRequest db0 "market" (some "missing-id") "req-2" =
      ({ db0 with
          requests := db0.requests ++
            [{ id := "req-2", endpoint := "market", status := .paymentRequired,
               amount := marketOffering.amount, currency := marketOffering.currency,
               facilitatorUrl := marketOffering.facilitatorUrl, paymentHash := none,
               responseData := none,
               metadata := some "\x7b\"retriesRemaining\":3\x7d" }],
          ledger := db0.ledger ++
            [{ category := "REQUEST", event := "payment-required",
               requestId := some "req-2" }] },
       .ok (.paymentRequiredOut "req-2"
         { requestId := "req-2", endpoint := marketOffering.endpoint,
           amount := marketOffering.amount, currency := marketOffering.currency,
           facilitatorUrl := marketOffering.facilitatorUrl })) :=
  autopay_C10_unknown_existing_id_creates_new db0 "market" marketOffering
    "missing-id" "req-2" rfl rfl

/-- One ingest step preserves "paused implies reason LOW_BALANCE". -/
theorem ingestStatus_preserves_reason (st : SysState × List LedgerEntry)
    (ev : BalanceStatus)
    (h : st.1.paymentsPaused = true → st.1.pauseReason = some "LOW_BALANCE") :
    (ingestStatus st ev).1.paymentsPaused = true →
      (ingestStatus st ev).1.pauseReason = some "LOW_BALANCE" := by
  cases ev <;>
    simp only [ingestStatus, ensurePaymentsPausedStep, maybeResumePaymentsStep] <;>
    first
      | exact h
      | (split_ifs <;> simp_all)

/-- Folding ingest steps preserves "paused implies reason LOW_BALANCE". -/
theorem runIngest_preserves_reason (evs : List BalanceStatus)
    (st : SysState × List LedgerEntry)
    (h : st.1.paymentsPaused = true → st.1.pauseReason = some "LOW_BALANCE") :
    (runIngest st evs).1.paymentsPaused = true →
      (runIngest st evs).1.pauseReason = some "LOW_BALANCE" := by
  induction evs generalizing st with
  | nil => exact h
  | cons e evs ih =>
    simp only [runIngest, List.foldl_cons]
    exact ih _ (ingestStatus_preserves_reason st e h)

/-- Reachable paused states were paused for LOW_BALANCE. -/
theorem reachable_paused_reason (s : SysState) (l : List LedgerEntry)
    (h : ReachableSys (s, l)) (hp : s.paymentsPaused = true) :
    s.pauseReason = some "LOW_BALANCE" := by
  obtain ⟨evs, heq⟩ := h
  have hrun := runIngest_preserves_reason evs (initialSysState, [])
    (by simp [initialSysState])
  rw [heq] at hrun
  exact hrun hp

/-- A LOW reading on a paused state only logs the low-balance line. -/
theorem ingestStatus_low_paused (st : SysState × List LedgerEntry)
    (hp : st.1.paymentsPaused = true) :
    ingestStatus st .low =
      (st.1, st.2 ++ [{ category := "BALANCE", event := "low-balance" }]) := by
  simp [ingestStatus, ensurePaymentsPausedStep, hp]

/-- A LOW reading on an unpaused state pauses with LOW_BALANCE and logs the
payments-paused and low-balance lines. -/
theorem ingestStatus_low_unpaused (st : SysState × List LedgerEntry)
    (hp : st.1.paymentsPaused = false) :
    ingestStatus st .low =
      ({ paymentsPaused := true, pauseReason := some "LOW_BALANCE" },
        st.2 ++ [{ category := "BALANCE", event := "payments-paused" },
                 { category := "BALANCE", event := "low-balance" }]) := by
  simp [ingestStatus, ensurePaymentsPausedStep, hp]

/-- An OK reading on a LOW_BALANCE pause clears it and logs
payments-resumed. -/
theorem ingestStatus_ok_clears (st : SysState × List LedgerEntry)
    (hp : st.1.paymentsPaused = true)
    (hr : st.1.pauseReason = some "LOW_BALANCE") :
    ingestStatus st .ok =
      ({ paymentsPaused := false, pauseReason := none },
        st.2 ++ [{ category := "BALANCE", event := "payments-resumed" }]) := by
  simp [ingestStatus, maybeResumePaymentsStep, hp, hr]

/-- An OK reading on an unpaused state changes nothing. -/
theorem ingestStatus_ok_unpaused (st : SysState × List LedgerEntry)
    (hp : st.1.paymentsPaused = false) :
    ingestStatus st .ok = st := by
  simp [ingestStatus, maybeResumePaymentsStep, hp]

/-- A non-OK reading on a paused state keeps the SystemState and appends no
payments-paused or payments-resumed entry. -/
theorem ingestStatus_noOk_paused (st : SysState × List LedgerEntry)
    (e : BalanceStatus) (he : e ≠ .ok) (hp : st.1.paymentsPaused = true) :
    (ingestStatus st e).1 = st.1 ∧
    countEvent (ingestStatus st e).2 "payments-paused" =
      countEvent st.2 "payments-paused" ∧
    countEvent (ingestStatus st e).2 "payments-resumed" =
      countEvent st.2 "payments-resumed" := by
  cases e with
  | ok => exact absurd rfl he
  | low =>
    rw [ingestStatus_low_paused st hp]
    refine ⟨rfl, ?_, ?_⟩ <;> simp [countEvent, List.filter_append]
  | error =>
    refine ⟨?_, ?_, ?_⟩ <;> simp [ingestStatus, countEvent, List.filter_append]
  | unknown => exact ⟨rfl, rfl, rfl⟩

/-- A run without any OK reading on a paused state keeps the SystemState and
appends no payments-paused or payments-resumed entry. -/
theorem runIngest_noOk_paused (evs : List BalanceStatus)
    (st : SysState × List LedgerEntry)
    (hok : BalanceStatus.ok ∉ evs) (hp : st.1.paymentsPaused = true) :
    (runIngest st evs).1 = st.1 ∧
    countEvent (runIngest st evs).2 "payments-paused" =
      countEvent st.2 "payments-paused" ∧
    countEvent (runIngest st evs).2 "payments-resumed" =
      countEvent st.2 "payments-resumed" := by
  induction evs generalizing st with
  | nil => exact ⟨rfl, rfl, rfl⟩
  | cons e evs ih =>
    simp only [List.mem_cons, not_or] at hok
    have he : e ≠ .ok := fun hcontra => hok.1 hcontra.symm
    obtain ⟨h1, h2, h3⟩ := ingestStatus_noOk_paused st e he hp
    have hp2 : (ingestStatus st e).1.paymentsPaused = true := by rw [h1]; exact hp
    obtain ⟨g1, g2, g3⟩ := ih (ingestStatus st e) hok.2 hp2
    simp only [runIngest, List.foldl_cons] at g1 g2 g3 ⊢
    exact ⟨g1.trans h1, g2.trans h2, g3.trans h3⟩

/-- Claim C7: from any state the balance service can reach, ingesting a
LOW snapshot pauses the system with reason LOW_BALANCE; every subsequent
ensurePaymentsActive fails carrying that reason as long as no OK snapshot
is ingested; an OK snapshot clears the pause; an ERROR snapshot never
changes the SystemState; and the payments-paused entry is appended only on
the transition (zero further such entries across any OK-free run), while a
second OK appends no second payments-resumed entry. -/
theorem autopay_C7_low_balance_pause_resume (s : SysState) (l : List LedgerEntry)
    (hreach : ReachableSys (s, l)) :
    (ingestStatus (s, l) .low).1.paymentsPaused = true ∧
    (ingestStatus (s, l) .low).1.pauseReason = some "LOW_BALANCE" ∧
    (∀ evs : List BalanceStatus, BalanceStatus.ok ∉ evs →
      ensurePaymentsActive (runIngest (ingestStatus (s, l) .low) evs).1 =
        .error (some "LOW_BALANCE")) ∧
    (ingestStatus (ingestStatus (s, l) .low) .ok).1.paymentsPaused = false ∧
    ensurePaymentsActive (ingestStatus (ingestStatus (s, l) .low) .ok).1 = .ok () ∧
    (∀ (z : SysState) (w : List LedgerEntry),
      (ingestStatus (z, w) .error).1 = z) ∧
    countEvent (ingestStatus (s, l) .low).2 "payments-paused" =
      countEvent l "payments-paused" + (if s.paymentsPaused then 0 else 1) ∧
    (∀ evs : List BalanceStatus, BalanceStatus.ok ∉ evs →
      countEvent (runIngest (ingestStatus (s, l) .low) evs).2 "payments-paused" =
        countEvent (ingestStatus (s, l) .low).2 "payments-paused") ∧
    countEvent (ingestStatus (ingestStatus (ingestStatus (s, l) .low) .ok) .ok).2
        "payments-resumed" = countEvent l "payments-resumed" + 1 := by
  have hlow : (ingestStatus (s, l) .low).1 =
      { paymentsPaused := true, pauseReason := some "LOW_BALANCE" } := by
    by_cases hp : s.paymentsPaused = true
    · have hr := reachable_paused_reason s l hreach hp
      rw [ingestStatus_low_paused (s, l) hp]
      show s = _
      cases s
      simp_all
    · rw [ingestStatus_low_unpaused (s, l) (by simpa using hp)]
  have hpaused : (ingestStatus (s, l) .low).1.paymentsPaused = true := by rw [hlow]
  have hreason : (ingestStatus (s, l) .low).1.pauseReason = some "LOW_BALANCE" := by
    rw [hlow]
  have hclears := ingestStatus_ok_clears (ingestStatus (s, l) .low) hpaused hreason
  have hnorestwo : countEvent (ingestStatus (s, l) .low).2 "payments-resumed" =
      countEvent l "payments-resumed" := by
    by_cases hp : s.paymentsPaused = true
    · rw [ingestStatus_low_paused (s, l) hp]
      simp [countEvent, List.filter_append]
    · rw [ingestStatus_low_unpaused (s, l) (by simpa using hp)]
      simp [countEvent, List.filter_append]
  refine ⟨hpaused, hreason, ?_, ?_, ?_, ?_, ?_, ?_, ?_⟩
  · intro evs hok
    have hrun := runIngest_noOk_paused evs (ingestStatus (s, l) .low) hok hpaused
    rw [hrun.1, hlow]
    rfl
  · rw [hclears]
  · rw [hclears]
    rfl
  · intro z w
    rfl
  · by_cases hp : s.paymentsPaused = true
    · rw [ingestStatus_low_paused (s, l) hp, hp, if_pos rfl]
      simp [countEvent, List.filter_append]
    · have hp2 : s.paymentsPaused = false := by simpa using hp
      rw [ingestStatus_low_unpaused (s, l) hp2, hp2]
      simp [countEvent, List.filter_append]
  · intro evs hok
    exact (runIngest_noOk_paused evs (ingestStatus (s, l) .low) hok hpaused).2.1
  · rw [hclears, ingestStatus_ok_unpaused _ rfl]
    rw [countEvent_append_eq _ _ _ rfl, hnorestwo]

/-- Witness for the C7 theorem at the initial (reachable via the empty
trace) system state. -/
theorem autopay_C7_low_balance_pause_resume_witness :
    (ingestStatus (initialSysState, []) .low).1.paymentsPaused = true ∧
    (ingestStatus (initialSysState, []) .low).1.pauseReason = some "LOW_BALANCE" ∧
    (∀ evs : List BalanceStatus, BalanceStatus.ok ∉ evs →
      ensurePaymentsActive (runIngest (ingestStatus (initialSysState, []) .low) evs).1 =
        .error (some "LOW_BALANCE")) ∧
    (ingestStatus (ingestStatus (initialSysState, []) .low) .ok).1.paymentsPaused = false ∧
    ensurePaymentsActive (ingestStatus (ingestStatus (initialSysState, []) .low) .ok).1 =
      .ok () ∧
    (∀ (z : SysState) (w : List LedgerEntry),
      (ingestStatus (z, w) .error).1 = z) ∧
    countEvent (ingestStatus (initialSysState, []) .low).2 "payments-paused" =
      countEvent ([] : List LedgerEntry) "payments-paused" +
        (if initialSysState.paymentsPaused then 0 else 1) ∧
    (∀ evs : List BalanceStatus, BalanceStatus.ok ∉ evs →
      countEvent (runIngest (ingestStatus (initialSysState, []) .low) evs).2
          "payments-paused" =
        countEvent (ingestStatus (initialSysState, []) .low).2 "payments-paused") ∧
    countEvent (ingestStatus (ingestStatus (ingestStatus (initialSysState, []) .low)
        .ok) .ok).2 "payments-resumed" =
      countEvent ([] : List LedgerEntry) "payments-resumed" + 1 :=
  autopay_C7_low_balance_pause_resume initialSysState [] ⟨[], rfl⟩

/-- Claim C8 (amended): verifyFacilitatorSignature returns false whenever
the configured secret is missing or empty or the signature header is
missing or empty; with both present it returns the byte-wise comparison of
the hex-decoded signature against the hex-decoded HMAC digest whenever the
two decodings have the same length — true exactly on a match — but when
the lengths differ it raises the RangeError of crypto.timingSafeEqual
instead of returning false. -/
theorem autopay_C8_verify_signature_total_behavior
    (hmacHex : String → String → String) (body : String) (sec sig : String)
    (hsec : sec ≠ "") (hsig : sig ≠ "") :
    (∀ s : Option String, verifyFacilitatorSignature hmacHex none s body = .ok false) ∧
    (∀ s : Option String,
      verifyFacilitatorSignature hmacHex (some "") s body = .ok false) ∧
    verifyFacilitatorSignature hmacHex (some sec) none body = .ok false ∧
    verifyFacilitatorSignature hmacHex (some sec) (some "") body = .ok false ∧
    ((hexDecode sig).length = (hexDecode (hmacHex sec body)).length →
      verifyFacilitatorSignature hmacHex (some sec) (some sig) body =
        .ok (hexDecode sig == hexDecode (hmacHex sec body))) ∧
    ((hexDecode sig).length ≠ (hexDecode (hmacHex sec body)).length →
      verifyFacilitatorSignature hmacHex (some sec) (some sig) body =
        .error "RangeError: Input buffers must have the same byte length") := by
  have hsecb : (sec == "") = false := beq_eq_false_iff_ne.mpr hsec
  have hsigb : (sig == "") = false := beq_eq_false_iff_ne.mpr hsig
  refine ⟨fun _ => rfl, fun _ => rfl, ?_, ?_, ?_, ?_⟩
  · simp [verifyFacilitatorSignature, hsecb]
  · simp [verifyFacilitatorSignature, hsecb]
  · intro hlen
    simp [verifyFacilitatorSignature, hsecb, hsigb, timingSafeEqual, hlen]
  · intro hlen
    simp [verifyFacilitatorSignature, hsecb, hsigb, timingSafeEqual, hlen]

/-- Witness for the amended C8 theorem: a configured secret with a
signature equal to the digest (so of matching length). -/
theorem autopay_C8_verify_signature_total_behavior_witness :
    (∀ s : Option String,
      verifyFacilitatorSignature constHmacHex none s "body" = .ok false) ∧
    (∀ s : Option String,
      verifyFacilitatorSignature constHmacHex (some "") s "body" = .ok false) ∧
    verifyFacilitatorSignature constHmacHex (some "secret") none "body" = .ok false ∧
    verifyFacilitatorSignature constHmacHex (some "secret") (some "") "body" =
      .ok false ∧
    ((hexDecode sampleDigestHex).length =
        (hexDecode (constHmacHex "secret" "body")).length →
      verifyFacilitatorSignature constHmacHex (some "secret") (some sampleDigestHex)
        "body" = .ok (hexDecode sampleDigestHex ==
          hexDecode (constHmacHex "secret" "body"))) ∧
    ((hexDecode sampleDigestHex).length ≠
        (hexDecode (constHmacHex "secret" "body")).length →
      verifyFacilitatorSignature constHmacHex (some "secret") (some sampleDigestHex)
        "body" = .error "RangeError: Input buffers must have the same byte length") :=
  autopay_C8_verify_signature_total_behavior constHmacHex "body" "secret"
    sampleDigestHex (by decide) (by decide)

/-- The exponent of the backoff formula: max(0, n - 1) on naturals. -/
theorem calculateBackoffSeconds_succ (maxB base n : Nat) :
    calculateBackoffSeconds maxB base (n + 1) = min (base * 2 ^ n) maxB := by
  simp [calculateBackoffSeconds]

/-- Claim C9: a failed task execution moves the task to BACKOFF with the
lock cleared, failureCount incremented by one, lastError recorded and the
next-eligible time now + min(baseBackoff * 2^(failureCount - 1),
MAX_BACKOFF) seconds; with baseBackoff 30 under the default 900-second cap
the successive delays are 30, 60, 120, 240, 480 and then 900 for every
later failure; and failureCount over consecutive failures grows by exactly
the number of failures. -/
theorem autopay_C9_backoff_progression (maxB : Nat) (task : AutonomyTask)
    (now : Nat) (msg : String) :
    ((handleFailure maxB task now msg).1.status = .backoff ∧
     (handleFailure maxB task now msg).1.failureCount = task.failureCount + 1 ∧
     (handleFailure maxB task now msg).1.lockedAt = none ∧
     (handleFailure maxB task now msg).1.lastError = some msg ∧
     (handleFailure maxB task now msg).1.nextRunAt =
       some (now + calculateBackoffSeconds maxB task.backoffSeconds
         (task.failureCount + 1)) ∧
     (handleFailure maxB task now msg).2 =
       { category := "AUTONOMY", event := "task-failure" } ∧
     calculateBackoffSeconds maxB task.backoffSeconds (task.failureCount + 1) =
       min (task.backoffSeconds * 2 ^ task.failureCount) maxB) ∧
    (calculateBackoffSeconds defaultMaxBackoffSeconds 30 1 = 30 ∧
     calculateBackoffSeconds defaultMaxBackoffSeconds 30 2 = 60 ∧
     calculateBackoffSeconds defaultMaxBackoffSeconds 30 3 = 120 ∧
     calculateBackoffSeconds defaultMaxBackoffSeconds 30 4 = 240 ∧
     calculateBackoffSeconds defaultMaxBackoffSeconds 30 5 = 480 ∧
     (∀ k, 6 ≤ k → calculateBackoffSeconds defaultMaxBackoffSeconds 30 k = 900)) ∧
    (∀ nows : List Nat, (runFailures maxB task nows msg).failureCount =
      task.failureCount + nows.length) := by
  refine ⟨⟨rfl, rfl, rfl, rfl, rfl, rfl, calculateBackoffSeconds_succ _ _ _⟩,
    ⟨by decide, by decide, by decide, by decide, by decide, ?_⟩, ?_⟩
  · intro k hk
    have h1 : (5 : Nat) ≤ k - 1 := by omega
    have h2 : (32 : Nat) ≤ 2 ^ (k - 1) := by
      calc (32 : Nat) = 2 ^ 5 := by norm_num
        _ ≤ 2 ^ (k - 1) := Nat.pow_le_pow_right (by norm_num) h1
    have h3 : (900 : Nat) ≤ 30 * 2 ^ (k - 1) := by
      calc (900 : Nat) ≤ 30 * 32 := by norm_num
        _ ≤ 30 * 2 ^ (k - 1) := Nat.mul_le_mul_left 30 h2
    simp [calculateBackoffSeconds, defaultMaxBackoffSeconds, Nat.min_eq_right h3]
  · intro nows
    induction nows generalizing task with
    | nil => simp [runFailures]
    | cons n ns ih =>
      simp only [runFailures, List.foldl_cons] at ih ⊢
      rw [ih ((handleFailure maxB task n msg).1)]
      simp only [handleFailure, List.length_cons]
      omega

end Autopay
